import Mathlib

/-
Verification of the crio checkpoint/restore orchestration core.

Shallow embedding of:
  - src/crio/ckpt_execvp.py  (identity deriver, checkpoint context manager, clear_checkpoints)
  - src/cryo/ckpt.py         (earlier variant of the checkpoint context manager)

Machine integers do not occur; the Python code works with unbounded ints,
strings and bytes.  SHA-256 is implemented over Nat with explicit reduction
modulo 2^32 where the algorithm works on 32-bit words.
-/

namespace Crio

/-! ## JSON values, as produced by the checkpoint-context dictionaries

`_generate_checkpoint_id` serialises a dict whose values are strings or
string-to-string dicts (plus arbitrary caller context, itself built from
strings and dicts) with `json.dumps(..., sort_keys=True)`.  We model the
JSON-serialisable values that can appear there. -/

inductive Json where
  | str (s : String)
  | obj (fields : List (String × Json))
deriving Repr

/-- One hexadecimal digit, lower case, as produced by Python `"%x"` style
formatting and by `hashlib`'s `hexdigest`. -/
def hexChar (k : Nat) : Char :=
  if k < 10 then Char.ofNat (48 + k) else Char.ofNat (87 + k)

/-- Four hex digits of a value below 0x10000, big-endian (`\uXXXX` payload). -/
def hex4 (n : Nat) : List Char :=
  [hexChar ((n >>> 12) % 16), hexChar ((n >>> 8) % 16),
   hexChar ((n >>> 4) % 16), hexChar (n % 16)]

/-- Escaping of one character inside a JSON string literal, following
`json.dumps` with its default `ensure_ascii=True`: printable ASCII other
than quote and backslash is kept, the usual short escapes are used for
control characters that have them, everything else becomes `\uXXXX`
(a surrogate pair beyond the BMP). -/
def escapeChar (c : Char) : List Char :=
  let n := c.toNat
  if n = 34 then ['\\', '"']
  else if n = 92 then ['\\', '\\']
  else if n = 10 then ['\\', 'n']
  else if n = 9 then ['\\', 't']
  else if n = 13 then ['\\', 'r']
  else if n = 8 then ['\\', 'b']
  else if n = 12 then ['\\', 'f']
  else if 32 ≤ n ∧ n ≤ 126 then [c]
  else if n < 65536 then '\\' :: 'u' :: hex4 n
  else
    let m := n - 65536
    ('\\' :: 'u' :: hex4 (55296 + m / 1024)) ++ ('\\' :: 'u' :: hex4 (56320 + m % 1024))

/-- A JSON string literal: quote, escaped characters, quote. -/
def quoteStr (s : String) : List Char :=
  '"' :: (s.data.map escapeChar).flatten ++ ['"']

/-- Comma-space separated concatenation (`json.dumps` default item
separator). -/
def joinComma : List (List Char) → List Char
  | [] => []
  | [x] => x
  | x :: y :: rest => x ++ ',' :: ' ' :: joinComma (y :: rest)

/-- Key ordering used by `sort_keys=True`: Python sorts the keys as
strings, i.e. lexicographically by code point, which is exactly Lean's
`String` order. -/
def keyLe (a b : String × List Char) : Bool :=
  decide (a.1 ≤ b.1)

mutual

/-- `json.dumps(v, sort_keys=True)` (default separators), as a character
list.  Objects serialise their entries, sort them by key and join them. -/
def dumpJson : Json → List Char
  | .str s => quoteStr s
  | .obj fs =>
    let entries := (dumpEntries fs).mergeSort keyLe
    '\x7b' :: joinComma (entries.map (fun kv => quoteStr kv.1 ++ ':' :: ' ' :: kv.2)) ++ ['\x7d']

/-- Serialise the values of an object's entries, keeping the keys. -/
def dumpEntries : List (String × Json) → List (String × List Char)
  | [] => []
  | (k, v) :: rest => (k, dumpJson v) :: dumpEntries rest

end

/-- `str.encode()` — UTF-8 bytes of a string (code points are below
0x110000 and never in the surrogate range, so the four standard UTF-8
cases cover everything). -/
def utf8Char (c : Nat) : List Nat :=
  if c < 128 then [c]
  else if c < 2048 then [192 + c / 64, 128 + c % 64]
  else if c < 65536 then [224 + c / 4096, 128 + (c / 64) % 64, 128 + c % 64]
  else [240 + c / 262144, 128 + (c / 4096) % 64, 128 + (c / 64) % 64, 128 + c % 64]

def utf8Encode (s : List Char) : List Nat :=
  (s.map (fun c => utf8Char c.toNat)).flatten

/-! ## SHA-256 (`hashlib.sha256`) over byte lists -/

/-- Reduction to a 32-bit word. -/
def w32 (x : Nat) : Nat := x % 4294967296

/-- Right rotation of a 32-bit word. -/
def rotr (n x : Nat) : Nat := w32 ((x >>> n) ||| (x <<< (32 - n)))

def bigSigma0 (x : Nat) : Nat := (rotr 2 x) ^^^ (rotr 13 x) ^^^ (rotr 22 x)
def bigSigma1 (x : Nat) : Nat := (rotr 6 x) ^^^ (rotr 11 x) ^^^ (rotr 25 x)
def smallSigma0 (x : Nat) : Nat := (rotr 7 x) ^^^ (rotr 18 x) ^^^ (x >>> 3)
def smallSigma1 (x : Nat) : Nat := (rotr 17 x) ^^^ (rotr 19 x) ^^^ (x >>> 10)
def chFn (x y z : Nat) : Nat := (x &&& y) ^^^ ((x ^^^ 4294967295) &&& z)
def majFn (x y z : Nat) : Nat := (x &&& y) ^^^ (x &&& z) ^^^ (y &&& z)

/-- The 64 SHA-256 round constants (FIPS 180-4, written in decimal). -/
def K : List Nat :=
  [1116352408, 1899447441, 3049323471, 3921009573,
   961987163, 1508970993, 2453635748, 2870763221,
   3624381080, 310598401, 607225278, 1426881987,
   1925078388, 2162078206, 2614888103, 3248222580,
   3835390401, 4022224774, 264347078, 604807628,
   770255983, 1249150122, 1555081692, 1996064986,
   2554220882, 2821834349, 2952996808, 3210313671,
   3336571891, 3584528711, 113926993, 338241895,
   666307205, 773529912, 1294757372, 1396182291,
   1695183700, 1986661051, 2177026350, 2456956037,
   2730485921, 2820302411, 3259730800, 3345764771,
   3516065817, 3600352804, 4094571909, 275423344,
   430227734, 506948616, 659060556, 883997877,
   958139571, 1322822218, 1537002063, 1747873779,
   1955562222, 2024104815, 2227730452, 2361852424,
   2428436474, 2756734187, 3204031479, 3329325298]

/-- Working registers of the compression function. -/
structure Regs where
  a : Nat
  b : Nat
  c : Nat
  d : Nat
  e : Nat
  f : Nat
  g : Nat
  h : Nat
deriving Repr

def initRegs : Regs :=
  ⟨1779033703, 3144134277, 1013904242, 2773480762, 1359893119, 2600822924, 528734635, 1541459225⟩

/-- The length field of the padding: the bit length as 8 big-endian bytes. -/
def lenBytes (n : Nat) : List Nat :=
  [(n >>> 56) % 256, (n >>> 48) % 256, (n >>> 40) % 256, (n >>> 32) % 256,
   (n >>> 24) % 256, (n >>> 16) % 256, (n >>> 8) % 256, n % 256]

/-- SHA-256 padding: a 0x80 byte, zeros to 56 mod 64, then the bit length. -/
def padMessage (msg : List Nat) : List Nat :=
  let L := msg.length
  msg ++ 128 :: List.replicate ((64 - ((L + 9) % 64)) % 64) 0 ++ lenBytes (8 * L)

/-- Split the padded message into 64-byte blocks. -/
def toBlocks : List Nat → List (List Nat)
  | [] => []
  | b :: rest => ((b :: rest).take 64) :: toBlocks ((b :: rest).drop 64)
termination_by l => l.length
decreasing_by simp; omega

/-- Big-endian 32-bit words of a block. -/
def bytesToWords : List Nat → List Nat
  | b0 :: b1 :: b2 :: b3 :: rest =>
    (((b0 * 256 + b1) * 256 + b2) * 256 + b3) :: bytesToWords rest
  | _ => []

/-- One extension step of the message schedule (appends word `i = length`). -/
def scheduleStep (w : List Nat) : List Nat :=
  let i := w.length
  w ++ [w32 (smallSigma1 (w.getD (i - 2) 0) + w.getD (i - 7) 0 +
             smallSigma0 (w.getD (i - 15) 0) + w.getD (i - 16) 0)]

/-- The 64-word message schedule from the 16 block words. -/
def schedule (w : List Nat) : List Nat :=
  (List.range 48).foldl (fun acc _ => scheduleStep acc) w

/-- One compression round. -/
def round (r : Regs) (kw : Nat × Nat) : Regs :=
  let t1 := w32 (r.h + bigSigma1 r.e + chFn r.e r.f r.g + kw.1 + kw.2)
  let t2 := w32 (bigSigma0 r.a + majFn r.a r.b r.c)
  ⟨w32 (t1 + t2), r.a, r.b, r.c, w32 (r.d + t1), r.e, r.f, r.g⟩

/-- Compress one 64-byte block into the running hash state. -/
def compress (hs : Regs) (block : List Nat) : Regs :=
  let w := schedule (bytesToWords block)
  let r := (K.zip w).foldl round hs
  ⟨w32 (hs.a + r.a), w32 (hs.b + r.b), w32 (hs.c + r.c), w32 (hs.d + r.d),
   w32 (hs.e + r.e), w32 (hs.f + r.f), w32 (hs.g + r.g), w32 (hs.h + r.h)⟩

/-- The eight 32-bit digest words of a byte message. -/
def sha256Words (msg : List Nat) : List Nat :=
  let f := (toBlocks (padMessage msg)).foldl compress initRegs
  [f.a, f.b, f.c, f.d, f.e, f.f, f.g, f.h]

/-- Eight lower-case hex digits of one word, big-endian. -/
def wordHex (x : Nat) : List Char :=
  (List.range 8).map (fun i => hexChar ((x >>> (28 - 4 * i)) % 16))

/-- `hashlib.sha256(bytes).hexdigest()` as a character list (64 hex chars). -/
def sha256Hex (msg : List Nat) : List Char :=
  ((sha256Words msg).map wordHex).flatten

/-! ## `_generate_checkpoint_id` (src/crio/ckpt_execvp.py, ll. 24-38;
src/cryo/ckpt.py, ll. 28-44, is character-for-character identical)

The ambient inputs read by the Python function are `os.sys.version` and
`os.environ`; they are passed here explicitly, the environment as its
item list. -/

/-- Python's `str.startswith`: the string opens with the given prefix,
character for character.  (Stated over the character lists, which compute;
Lean's own byte-position `String.startsWith` is equivalent but does not
reduce.) -/
def startswith (s p : String) : Bool :=
  p.data.isPrefixOf s.data

/-- The environment filter (l. 29-33): keep exactly the variables whose
name starts with `PYTHONPATH` or `PYTHONHOME`. -/
def pythonEnvFilter (environ : List (String × String)) : List (String × String) :=
  environ.filter (fun kv => startswith kv.1 "PYTHONPATH" || startswith kv.1 "PYTHONHOME")

/-- `dict.update`: keys of `base` keep their position but take the value
from `ctx` when `ctx` has the key; keys only in `ctx` are appended in
order.  (With `sort_keys=True` only the resulting mapping matters.) -/
def dictUpdate (base ctx : List (String × Json)) : List (String × Json) :=
  base.map (fun kv =>
    match ctx.find? (fun c => c.1 == kv.1) with
    | some c => (kv.1, c.2)
    | none => kv)
  ++ ctx.filter (fun c => !(base.any (fun kv => kv.1 == c.1)))

/-- The `checkpoint_context` dict of ll. 26-36: the built-in facts, updated
with the caller context when one is given. -/
def mergedContext (pythonVersion : String) (filteredEnv : List (String × String))
    (context : Option (List (String × Json))) : List (String × Json) :=
  let checkpoint_context : List (String × Json) :=
    [("python_version", Json.str pythonVersion),
     ("env", Json.obj (filteredEnv.map (fun kv => (kv.1, Json.str kv.2))))]
  match context with
  | none => checkpoint_context
  | some ctx => dictUpdate checkpoint_context ctx

/-- `_generate_checkpoint_id`: serialise the merged context with sorted
keys, SHA-256 it, and keep the first 16 hex characters. -/
def _generate_checkpoint_id (pythonVersion : String) (environ : List (String × String))
    (context : Option (List (String × Json))) : String :=
  String.mk ((sha256Hex (utf8Encode (dumpJson
    (Json.obj (mergedContext pythonVersion (pythonEnvFilter environ) context))))).take 16)


/-! ## Shared vocabulary for the two checkpoint orchestrations

The `checkpoint` context managers are two-process choreographies whose
behaviour, given the environment's responses (filesystem state, lock
availability, external-tool exit statuses, the caller block's behaviour),
is deterministic.  We embed each as a pure function from those inputs to
the final observable state plus an event trace of the controller and
worker actions, in source order. -/

/-- Observable events of one `checkpoint` invocation, in order. -/
inductive Ev where
  | dirsEnsured
  | lockOpened
  | lockAcquired
  | restoreCalled
  | forked
  | workerRanBlock
  | workerStopped
  | waitSawStop
  | dumpInvoked (exitStatus : Nat)
  | markerTouched
  | sigContSent
  | workerReaped
  | workerKilled
  | lockReleased
deriving DecidableEq, Repr

/-- Failure conditions of the two variants (the Python realisations are
noted with each constructor). -/
inductive Err where
  | mkdirFailed          -- OSError / PermissionError from mkdir or symlink setup
  | dirPermission        -- RuntimeError "Cannot create checkpoint directory - permission denied"
  | lockPermission       -- RuntimeError "Cannot create lock file - permission denied"
  | lockBusy             -- RuntimeError "Another crio process is running"
  | lockUnavailable      -- raw BlockingIOError from fcntl.flock(LOCK_EX | LOCK_NB)
  | badFileDescriptor    -- OSError EBADF from fcntl.flock on a closed descriptor
  | restoreFailed        -- RuntimeError "Checkpoint restore failed"
  | dumpFailed           -- subprocess.CalledProcessError from criu dump (check=True)
  | dumpFailedWrapped    -- RuntimeError "Checkpoint creation failed"
  | workerGone           -- ChildProcessError from os.waitpid on a reaped child
  | stopTimeout          -- RuntimeError "Child process failed to stop within timeout"
deriving DecidableEq, Repr

/-- How one `checkpoint` invocation ends in the orchestrating process. -/
inductive Outcome where
  | generatorDone            -- the generator body ran to its end and control returns
  | raises (e : Err)         -- an exception propagates to the caller
  | processReplaced          -- os.execvp succeeded: the call never returns
  | controllerExited (code : Nat)  -- the controller called os._exit(code)
  | hangs                    -- the controller blocks forever
deriving DecidableEq, Repr

/-- Which of the two protocol paths ran (chosen at the marker check). -/
inductive Branch where
  | noBranch
  | restorePath
  | forkPath
deriving DecidableEq, Repr

/-- State of the forked worker process once the invocation has ended
(or, for a hanging controller, at the point it blocks). -/
inductive WorkerState where
  | absent               -- no fork happened (or exec replaced the process)
  | running
  | suspended            -- stopped by SIGSTOP and never resumed
  | exited (code : Nat)
  | killed               -- terminated by the controller's SIGKILL
deriving DecidableEq, Repr

namespace CkptExecvp

/-! ## `checkpoint` of src/crio/ckpt_execvp.py (ll. 40-128)

Inputs are the environment's responses in the order the code consults
them.  Directory and symlink setup (ll. 49-56) and `os.open` (l. 57) are
modelled by a single success flag since the code distinguishes none of
their failures (any exception there propagates with no lock to release).
The caller-supplied block is the `yield` at l. 87; its behaviour decides
the worker's fate and hence what the controller's wait loop (ll. 94-97)
observes.  This variant's wait loop has no timeout and no clock. -/

structure In_ where
  setupOk : Bool        -- mkdirs, symlink (ll. 49-56) and os.open (l. 57) succeed
  flockOk : Bool        -- fcntl.flock(LOCK_EX | LOCK_NB) (l. 58) succeeds
  markerExists : Bool   -- (tmp_checkpoint_dir / "checkpoint.exists").exists() (l. 59)
  execvpOk : Bool       -- os.execvp("sudo", ["sudo", "criu", "restore", ...]) (ll. 63-79)
  blockOk : Bool        -- the with-block body (yield, l. 87) completes without raising
  dumpExit : Nat        -- exit status of the criu dump subprocess (ll. 99-118)
deriving DecidableEq, Repr

/-- State when control reaches the `finally` of l. 123 (or leaves the
process without reaching it). -/
structure Body where
  trace : List Ev
  outcome : Outcome
  branch : Branch
  marker : Bool
  worker : WorkerState
  lockFdSet : Bool      -- lock_fd is not None
deriving DecidableEq, Repr

/-- The `try` body, ll. 47-122, seen from the original (controller)
process.  The worker's behaviour is folded in: with `blockOk` the child
runs the block and SIGSTOPs itself (ll. 86-88), so the wait loop breaks at
`WIFSTOPPED` (l. 96); without it the child's exception unwinds into
`finally: os._exit(0)` (ll. 89-90), so the child exits with status 0, the
first waitpid returns a non-stopped status, and the second waitpid raises
ChildProcessError, which nothing catches.  On dump success the controller
touches the marker (l. 119), SIGCONTs the child and reaps its exit
(ll. 121-122); the resumed child falls into its own `os._exit(0)`.  On a
non-zero dump exit, `check=True` raises CalledProcessError: no code kills
the stopped child (`child_pid` at l. 92 is recorded but never used). -/
def body (i : In_) : Body :=
  if !i.setupOk then
    ⟨[], .raises .mkdirFailed, .noBranch, i.markerExists, .absent, false⟩
  else if !i.flockOk then
    ⟨[.dirsEnsured, .lockOpened], .raises .lockUnavailable, .noBranch, i.markerExists, .absent, true⟩
  else if i.markerExists then
    if i.execvpOk then
      ⟨[.dirsEnsured, .lockOpened, .lockAcquired, .restoreCalled],
       .processReplaced, .restorePath, true, .absent, true⟩
    else
      ⟨[.dirsEnsured, .lockOpened, .lockAcquired, .restoreCalled],
       .raises .restoreFailed, .restorePath, true, .absent, true⟩
  else if !i.blockOk then
    ⟨[.dirsEnsured, .lockOpened, .lockAcquired, .forked, .workerRanBlock],
     .raises .workerGone, .forkPath, false, .exited 0, true⟩
  else if i.dumpExit = 0 then
    ⟨[.dirsEnsured, .lockOpened, .lockAcquired, .forked, .workerRanBlock, .workerStopped,
      .waitSawStop, .dumpInvoked 0, .markerTouched, .sigContSent, .workerReaped],
     .generatorDone, .forkPath, true, .exited 0, true⟩
  else
    ⟨[.dirsEnsured, .lockOpened, .lockAcquired, .forked, .workerRanBlock, .workerStopped,
      .waitSawStop, .dumpInvoked i.dumpExit],
     .raises .dumpFailed, .forkPath, false, .suspended, true⟩

/-- Final observable state of one invocation. -/
structure Out where
  trace : List Ev
  outcome : Outcome
  branch : Branch
  marker : Bool
  flockHeld : Bool
  lockFileExists : Bool
  worker : WorkerState
deriving DecidableEq, Repr

/-- `checkpoint` = try body plus the `finally` of ll. 123-128: when
lock_fd was set, flock(LOCK_UN), os.close and unlink(missing_ok=True)
run on every path that leaves the `try` by return or exception.  A
successful execvp replaces the process image instead: the `finally`
never runs there, and the kernel closes the (non-inheritable) descriptor
at exec, dropping the advisory lock but leaving the lock file in place. -/
def checkpoint (i : In_) : Out :=
  let b := body i
  match b.outcome with
  | .processReplaced =>
    ⟨b.trace, b.outcome, b.branch, b.marker, false, true, b.worker⟩
  | _ =>
    if b.lockFdSet then
      ⟨b.trace ++ [.lockReleased], b.outcome, b.branch, b.marker, false, false, b.worker⟩
    else
      ⟨b.trace, b.outcome, b.branch, b.marker, false, false, b.worker⟩

end CkptExecvp


namespace CkptExecvp

/-! ## `clear_checkpoints` of src/crio/ckpt_execvp.py (ll. 130-159)

The filesystem state the function touches: the identity directories under
the checkpoint root (each holding its `ckpt` symlink and lock file), and
the directory names under `/tmp`.  `shutil.rmtree` removes a named
directory with its contents; `glob("/tmp/criu-*")` matches exactly the
names with the `criu-` prefix. -/

structure FS where
  ids : List String      -- identity directories present under the checkpoint root
  links : List String    -- identities whose directory still holds the ckpt symlink
  tmp : List String      -- directory names under /tmp
deriving DecidableEq, Repr

/-- `clear_checkpoints(context)`: with a context, derive the identity and,
if its base directory exists, unlink the symlink (ll. 141-143), remove the
base directory (l. 145) and, when present, the tmp working directory
(ll. 147-149); nothing otherwise.  Without a context, remove the whole
root and recreate it empty (ll. 155-156), and remove every `/tmp/criu-*`
directory (ll. 158-159). -/
def clear_checkpoints (pythonVersion : String) (environ : List (String × String))
    (context : Option (List (String × Json))) (fs : FS) : FS :=
  match context with
  | some ctx =>
    let cid := _generate_checkpoint_id pythonVersion environ (some ctx)
    if cid ∈ fs.ids then
      let fs1 : FS := ⟨fs.ids, fs.links.filter (fun l => l != cid), fs.tmp⟩
      let fs2 : FS := ⟨fs1.ids.filter (fun d => d != cid), fs1.links, fs1.tmp⟩
      if ("criu-" ++ cid) ∈ fs2.tmp then
        ⟨fs2.ids, fs2.links, fs2.tmp.filter (fun d => d != "criu-" ++ cid)⟩
      else fs2
    else fs
  | none =>
    ⟨[], [], fs.tmp.filter (fun d => !(startswith d "criu-"))⟩

end CkptExecvp

namespace CryoCkpt

/-! ## `checkpoint` of src/cryo/ckpt.py (ll. 47-135)

This variant wraps directory creation (ll. 55-58) and lock acquisition
(ll. 61-70) in explicit handlers, waits for the worker with a 5-second
timeout check (ll. 94-108), kills the worker on any failure after the
fork (ll. 119-124), and ends the controller with `os._exit(0)` in a
`finally` (l. 126).  The worker's behaviour is the caller block's: on
completion it SIGSTOPs itself (l. 89), on any exception it calls
`os._exit(1)` (ll. 90-91). -/

/-- Behaviour of the caller-supplied block inside the worker; times are
seconds after the fork (the controller takes `start_time` right before
its wait loop). -/
inductive BlockB where
  | completes (t : Nat)      -- block returns after t seconds; worker SIGSTOPs itself
  | raisesExn (t : Nat)      -- block raises after t seconds; worker does os._exit(1)
  | runsForever              -- block never finishes
deriving DecidableEq, Repr

structure In_ where
  mkdirOk : Bool        -- checkpoint_dir.mkdir (ll. 55-58) raises no PermissionError
  openOk : Bool         -- os.open(lock_file, O_CREAT | O_RDWR) (l. 62) succeeds
  flockOk : Bool        -- fcntl.flock(LOCK_EX | LOCK_NB) (l. 63); false = BlockingIOError,
                        --   i.e. another process holds the advisory lock
  markerExists : Bool   -- (checkpoint_dir / "checkpoint.exists").exists() (l. 73)
  restoreExit : Nat     -- exit status of `criu restore` (ll. 75-77)
  block : BlockB        -- the yield at l. 88
  dumpExit : Nat        -- exit status of `criu dump` (ll. 112-115)
deriving DecidableEq, Repr

/-- What the wait loop of ll. 95-108 produces.  `os.waitpid(pid,
os.WUNTRACED)` has no `WNOHANG`, so each call blocks until the child
changes state; the loop therefore sees exactly one return per state
change: a stop breaks out of the loop before the timeout check; a
termination returns a non-stopped status, after which the timeout is
checked at the current time and, when it has not yet expired, the next
`waitpid` call raises ChildProcessError (the child was reaped) — which
the `except ProcessLookupError` at l. 101 does not catch, ECHILD not
being ESRCH.  When the child never changes state, `waitpid` blocks
forever and the timeout check is never reached. -/
inductive WaitRes where
  | sawStop (t : Nat)        -- WIFSTOPPED: break (l. 100)
  | gone (t : Nat)           -- ChildProcessError escapes the loop
  | timeoutHit (t : Nat)     -- RuntimeError "failed to stop within timeout" (ll. 104-107)
  | blocked                  -- the controller never leaves os.waitpid
deriving DecidableEq, Repr

def waitForStop : BlockB → WaitRes
  | .completes t => .sawStop t
  | .raisesExn t => if 5 < t then .timeoutHit t else .gone t
  | .runsForever => .blocked

structure Out where
  trace : List Ev
  outcome : Outcome
  raised : Option Err   -- the exception raised inside the parent branch, which the
                        --   `finally: os._exit(0)` at l. 126 discards before it
                        --   could reach the caller
  branch : Branch
  marker : Bool
  flockHeld : Bool
  lockFileExists : Bool
  worker : WorkerState
deriving DecidableEq, Repr

/-- The whole `checkpoint` context manager of src/cryo/ckpt.py.

Paths that raise before the fork run the outer `finally` (ll. 127-135):
with an open descriptor it unlocks, closes and unlinks; with a descriptor
that the handler at ll. 65-66 already closed, `fcntl.flock(lock_fd,
LOCK_UN)` raises OSError EBADF, which replaces the in-flight RuntimeError
and aborts the rest of the cleanup.  The fork path never reaches the
outer `finally`: the parent always leaves through `os._exit(0)` (l. 126),
which closes its descriptors (releasing the advisory lock) but unlinks
nothing.  On dump failure the `except BaseException` at ll. 119-124 sends
SIGKILL to the stopped worker before exiting; when the worker already
exited, the kill attempt raises ProcessLookupError and is ignored. -/
def checkpoint (i : In_) : Out :=
  if !i.mkdirOk then
    ⟨[], .raises .dirPermission, some .dirPermission, .noBranch, i.markerExists, false, false, .absent⟩
  else if !i.openOk then
    ⟨[.dirsEnsured], .raises .lockPermission, some .lockPermission, .noBranch,
     i.markerExists, false, false, .absent⟩
  else if !i.flockOk then
    ⟨[.dirsEnsured, .lockOpened], .raises .badFileDescriptor, some .lockBusy, .noBranch,
     i.markerExists, false, true, .absent⟩
  else if i.markerExists then
    if i.restoreExit = 0 then
      ⟨[.dirsEnsured, .lockOpened, .lockAcquired, .restoreCalled, .lockReleased],
       .generatorDone, none, .restorePath, true, false, false, .absent⟩
    else
      ⟨[.dirsEnsured, .lockOpened, .lockAcquired, .restoreCalled, .lockReleased],
       .raises .restoreFailed, some .restoreFailed, .restorePath, true, false, false, .absent⟩
  else
    match waitForStop i.block with
    | .sawStop _ =>
      if i.dumpExit = 0 then
        ⟨[.dirsEnsured, .lockOpened, .lockAcquired, .forked, .workerRanBlock, .workerStopped,
          .waitSawStop, .dumpInvoked 0, .markerTouched],
         .controllerExited 0, none, .forkPath, true, false, true, .suspended⟩
      else
        ⟨[.dirsEnsured, .lockOpened, .lockAcquired, .forked, .workerRanBlock, .workerStopped,
          .waitSawStop, .dumpInvoked i.dumpExit, .workerKilled],
         .controllerExited 0, some .dumpFailedWrapped, .forkPath, false, false, true, .killed⟩
    | .gone _ =>
      ⟨[.dirsEnsured, .lockOpened, .lockAcquired, .forked, .workerRanBlock],
       .controllerExited 0, some .workerGone, .forkPath, false, false, true, .exited 1⟩
    | .timeoutHit _ =>
      ⟨[.dirsEnsured, .lockOpened, .lockAcquired, .forked, .workerRanBlock],
       .controllerExited 0, some .stopTimeout, .forkPath, false, false, true, .exited 1⟩
    | .blocked =>
      ⟨[.dirsEnsured, .lockOpened, .lockAcquired, .forked, .workerRanBlock],
       .hangs, none, .forkPath, false, true, true, .running⟩

end CryoCkpt


/-! ## Theorems settling the claims on the ckpt_execvp.py orchestration -/

/-- Scanner for the marker-ordering property of a trace: `false` exactly
when a `markerTouched` event occurs before any successful dump event. -/
def markerAfterDumpOk : List Ev → Bool
  | [] => true
  | .markerTouched :: _ => false
  | .dumpInvoked n :: rest => if n = 0 then true else markerAfterDumpOk rest
  | _ :: rest => markerAfterDumpOk rest

namespace CkptExecvp

/-- C1: the claim — a failed dump must leave no worker behind — is false
of this code: with the dump tool exiting non-zero, the call raises the
dump failure while the forked worker is still sitting in SIGSTOP; no kill
event ever occurs (the recorded `child_pid` is never used). -/
theorem dump_failure_orphans_suspended_worker :
    (checkpoint ⟨true, true, false, true, true, 1⟩).outcome = .raises .dumpFailed
    ∧ (checkpoint ⟨true, true, false, true, true, 1⟩).worker = .suspended
    ∧ Ev.workerKilled ∉ (checkpoint ⟨true, true, false, true, true, 1⟩).trace
    ∧ Ev.lockReleased ∈ (checkpoint ⟨true, true, false, true, true, 1⟩).trace := by
  decide

/-- C2: in every execution, the existence marker is touched only after
the dump tool reported exit status zero; whenever the dump fails the
final state carries no marker; and an absent marker never selects the
restore path. -/
theorem marker_only_after_dump_success (i : In_) :
    markerAfterDumpOk (checkpoint i).trace = true
    ∧ (i.markerExists = false → i.dumpExit ≠ 0 → (checkpoint i).marker = false)
    ∧ (i.markerExists = false → (checkpoint i).branch ≠ .restorePath) := by
  obtain ⟨s, f, m, e, b, d⟩ := i
  cases s <;> cases f <;> cases m <;> cases e <;> cases b <;>
    by_cases hd : d = 0 <;>
    simp_all [checkpoint, body, markerAfterDumpOk]

theorem marker_only_after_dump_success_witness :
    markerAfterDumpOk (checkpoint ⟨true, true, false, true, true, 3⟩).trace = true
    ∧ (checkpoint ⟨true, true, false, true, true, 3⟩).marker = false
    ∧ (checkpoint ⟨true, true, false, true, true, 3⟩).branch ≠ .restorePath :=
  ⟨(marker_only_after_dump_success ⟨true, true, false, true, true, 3⟩).1,
   (marker_only_after_dump_success ⟨true, true, false, true, true, 3⟩).2.1 rfl (by decide),
   (marker_only_after_dump_success ⟨true, true, false, true, true, 3⟩).2.2 rfl⟩

/-- C3: on every exit path of the orchestrating process that returns
control to the caller (every outcome except a successful execvp, which
replaces the process), the advisory lock is no longer held, and whenever
it was acquired a release event precedes the return. -/
theorem lock_released_on_every_returning_path (i : In_)
    (h : (checkpoint i).outcome ≠ .processReplaced) :
    (checkpoint i).flockHeld = false
    ∧ (Ev.lockAcquired ∈ (checkpoint i).trace → Ev.lockReleased ∈ (checkpoint i).trace) := by
  obtain ⟨s, f, m, e, b, d⟩ := i
  cases s <;> cases f <;> cases m <;> cases e <;> cases b <;>
    by_cases hd : d = 0 <;>
    simp_all [checkpoint, body]

theorem lock_released_on_every_returning_path_witness :
    (checkpoint ⟨true, true, false, true, true, 1⟩).flockHeld = false
    ∧ (Ev.lockAcquired ∈ (checkpoint ⟨true, true, false, true, true, 1⟩).trace →
       Ev.lockReleased ∈ (checkpoint ⟨true, true, false, true, true, 1⟩).trace) :=
  lock_released_on_every_returning_path ⟨true, true, false, true, true, 1⟩ (by decide)

/-- The branch taken is decided solely by the marker once setup and lock
acquisition succeeded. -/
theorem branch_restore_iff (i : In_) (hs : i.setupOk = true) (hf : i.flockOk = true) :
    (checkpoint i).branch = .restorePath ↔ i.markerExists = true := by
  obtain ⟨s, f, m, e, b, d⟩ := i
  cases s <;> cases f <;> cases m <;> cases e <;> cases b <;>
    by_cases hd : d = 0 <;> simp_all [checkpoint, body]

theorem branch_fork_iff (i : In_) (hs : i.setupOk = true) (hf : i.flockOk = true) :
    (checkpoint i).branch = .forkPath ↔ i.markerExists = false := by
  obtain ⟨s, f, m, e, b, d⟩ := i
  cases s <;> cases f <;> cases m <;> cases e <;> cases b <;>
    by_cases hd : d = 0 <;> simp_all [checkpoint, body]

/-- A successful dump run ends with the marker set. -/
theorem marker_set_after_successful_dump (i : In_) (hs : i.setupOk = true)
    (hf : i.flockOk = true) (hm : i.markerExists = false) (hb : i.blockOk = true)
    (hd : i.dumpExit = 0) : (checkpoint i).marker = true := by
  obtain ⟨s, f, m, e, b, d⟩ := i
  cases s <;> cases f <;> cases m <;> cases e <;> cases b <;> simp_all [checkpoint, body]

/-- With the marker present, the invocation never runs the caller block
and never invokes the dump tool. -/
theorem restore_runs_no_block_no_dump (j : In_) (hs : j.setupOk = true)
    (hf : j.flockOk = true) (hm : j.markerExists = true) :
    (checkpoint j).branch = .restorePath
    ∧ Ev.workerRanBlock ∉ (checkpoint j).trace
    ∧ ∀ n, Ev.dumpInvoked n ∉ (checkpoint j).trace := by
  obtain ⟨s, f, m, e, b, d⟩ := j
  cases s <;> cases f <;> cases m <;> cases e <;> cases b <;> simp_all [checkpoint, body]

/-- C4: with the lock acquired, the branch is decided solely by the
marker: the restore path runs exactly when the marker is present and the
fork path exactly when it is absent (so exactly one of the two runs);
and after a successful dump the final marker is set, so a second call
seeded with that state takes the restore path, never runs the caller
block, and never invokes the dump tool. -/
theorem branch_by_marker_and_second_call_restores (i j : In_)
    (hs : i.setupOk = true) (hf : i.flockOk = true) :
    ((checkpoint i).branch = .restorePath ↔ i.markerExists = true)
    ∧ ((checkpoint i).branch = .forkPath ↔ i.markerExists = false)
    ∧ (i.markerExists = false → i.blockOk = true → i.dumpExit = 0 →
        (checkpoint i).marker = true
        ∧ (j.markerExists = (checkpoint i).marker → j.setupOk = true → j.flockOk = true →
            (checkpoint j).branch = .restorePath
            ∧ Ev.workerRanBlock ∉ (checkpoint j).trace
            ∧ ∀ n, Ev.dumpInvoked n ∉ (checkpoint j).trace)) := by
  refine ⟨branch_restore_iff i hs hf, branch_fork_iff i hs hf, fun hm hb hd => ?_⟩
  have hmk := marker_set_after_successful_dump i hs hf hm hb hd
  exact ⟨hmk, fun hjm hjs hjf =>
    restore_runs_no_block_no_dump j hjs hjf (by rw [hjm, hmk])⟩

theorem branch_by_marker_and_second_call_restores_witness :
    ((checkpoint ⟨true, true, false, true, true, 0⟩).branch = .restorePath ↔
      (⟨true, true, false, true, true, 0⟩ : In_).markerExists = true)
    ∧ ((checkpoint ⟨true, true, false, true, true, 0⟩).branch = .forkPath ↔
        (⟨true, true, false, true, true, 0⟩ : In_).markerExists = false)
    ∧ ((checkpoint ⟨true, true, false, true, true, 0⟩).marker = true
       ∧ ((checkpoint ⟨true, true, true, true, true, 0⟩).branch = .restorePath
          ∧ Ev.workerRanBlock ∉ (checkpoint ⟨true, true, true, true, true, 0⟩).trace
          ∧ ∀ n, Ev.dumpInvoked n ∉ (checkpoint ⟨true, true, true, true, true, 0⟩).trace)) := by
  have h := branch_by_marker_and_second_call_restores
    ⟨true, true, false, true, true, 0⟩ ⟨true, true, true, true, true, 0⟩ rfl rfl
  refine ⟨h.1, h.2.1, ?_⟩
  have h3 := h.2.2 rfl rfl rfl
  exact ⟨h3.1, h3.2 (by decide) rfl rfl⟩

end CkptExecvp


namespace CkptExecvp

/-- C9: clearing with a context removes that identity's persistent
directory with its linkage and its working directory (and nothing is
claimed removed beyond them — other identities' directories survive),
is a no-op when the identity's record is absent; clearing without a
context empties the checkpoint root (recreating it) and removes exactly
the `/tmp` directories with the `criu-` prefix. -/
theorem clear_checkpoints_removes_record_or_noops (ver : String)
    (env : List (String × String)) (ctx : List (String × Json)) (fs : FS) :
    (_generate_checkpoint_id ver env (some ctx) ∈ fs.ids →
       _generate_checkpoint_id ver env (some ctx) ∉ (clear_checkpoints ver env (some ctx) fs).ids
       ∧ _generate_checkpoint_id ver env (some ctx) ∉ (clear_checkpoints ver env (some ctx) fs).links
       ∧ ("criu-" ++ _generate_checkpoint_id ver env (some ctx)) ∉
           (clear_checkpoints ver env (some ctx) fs).tmp
       ∧ (∀ d, d ≠ _generate_checkpoint_id ver env (some ctx) →
            (d ∈ (clear_checkpoints ver env (some ctx) fs).ids ↔ d ∈ fs.ids)))
    ∧ (_generate_checkpoint_id ver env (some ctx) ∉ fs.ids →
        clear_checkpoints ver env (some ctx) fs = fs)
    ∧ clear_checkpoints ver env none fs
        = ⟨[], [], fs.tmp.filter (fun d => !(startswith d "criu-"))⟩ := by
  refine ⟨fun hmem => ?_, fun hnm => ?_, rfl⟩
  · simp only [clear_checkpoints, if_pos hmem]
    split
    · exact ⟨by simp, by simp, by simp,
        fun d hd => by simp [List.mem_filter, bne_iff_ne, hd]⟩
    · rename_i htmp
      exact ⟨by simp, by simp, htmp,
        fun d hd => by simp [List.mem_filter, bne_iff_ne, hd]⟩
  · simp [clear_checkpoints, hnm]

theorem clear_checkpoints_removes_record_or_noops_witness :
    (_generate_checkpoint_id "3.12" [] (some []) ∉
       (clear_checkpoints "3.12" [] (some [])
         ⟨[_generate_checkpoint_id "3.12" [] (some [])],
          [_generate_checkpoint_id "3.12" [] (some [])],
          ["criu-" ++ _generate_checkpoint_id "3.12" [] (some [])]⟩).ids)
    ∧ clear_checkpoints "3.12" [] (some []) ⟨[], [], []⟩ = ⟨[], [], []⟩ :=
  ⟨((clear_checkpoints_removes_record_or_noops "3.12" [] []
      ⟨[_generate_checkpoint_id "3.12" [] (some [])],
       [_generate_checkpoint_id "3.12" [] (some [])],
       ["criu-" ++ _generate_checkpoint_id "3.12" [] (some [])]⟩).1 (by simp)).1,
   (clear_checkpoints_removes_record_or_noops "3.12" [] [] ⟨[], [], []⟩).2.1 (by simp)⟩

end CkptExecvp

namespace CryoCkpt

/-- C7: the claim — the controller's wait for the worker's stop is
bounded by a timeout whose expiry kills the worker — is false of this
code: when the worker never stops (and never exits), the blocking
`os.waitpid` never returns, so the controller hangs with the worker
still running, nothing is killed, and no timeout failure is ever
raised.  The 5-second check can only fire after the child has already
terminated on its own. -/
theorem never_stopping_worker_hangs_controller :
    (checkpoint ⟨true, true, true, false, 0, .runsForever, 0⟩).outcome = .hangs
    ∧ (checkpoint ⟨true, true, true, false, 0, .runsForever, 0⟩).worker = .running
    ∧ Ev.workerKilled ∉ (checkpoint ⟨true, true, true, false, 0, .runsForever, 0⟩).trace
    ∧ (checkpoint ⟨true, true, true, false, 0, .runsForever, 0⟩).raised ≠ some .stopTimeout
    ∧ (checkpoint ⟨true, true, true, false, 0, .runsForever, 0⟩).flockHeld = true := by
  decide

/-- C8: when another holder has the identity's lock, the operation does
fail immediately at lock acquisition — the trace stops at the open, with
no branch, no fork, no restore, no dump — but the distinct Busy signal
(RuntimeError "Another crio process is running") is raised and then
replaced by OSError EBADF: the `finally` calls flock(LOCK_UN) on the
descriptor the handler already closed, so the caller sees a generic I/O
error rather than the Busy condition. -/
theorem lock_busy_surfaces_bad_descriptor :
    (checkpoint ⟨true, true, false, false, 0, .completes 0, 0⟩).raised = some .lockBusy
    ∧ (checkpoint ⟨true, true, false, false, 0, .completes 0, 0⟩).outcome
        = .raises .badFileDescriptor
    ∧ (checkpoint ⟨true, true, false, false, 0, .completes 0, 0⟩).trace
        = [.dirsEnsured, .lockOpened]
    ∧ (checkpoint ⟨true, true, false, false, 0, .completes 0, 0⟩).branch = .noBranch := by
  decide

/-- Input of the dump path whose caller block raises after `t` seconds. -/
def blockRaisesIn (t rE dE : Nat) : In_ :=
  ⟨true, true, true, false, rE, .raisesExn t, dE⟩

/-- C6 (amended): when the caller block raises, the worker exits with
status 1 instead of suspending, the controller does not wait forever and
raises the worker-gone failure when the crash happens within the
5-second window — after the window it raises the stop-timeout failure
instead — and in all cases no marker is created and the advisory lock is
not held after the controller exits. -/
theorem block_failure_kills_no_marker_lock_released (t rE dE : Nat) :
    (checkpoint (blockRaisesIn t rE dE)).worker = .exited 1
    ∧ Ev.workerStopped ∉ (checkpoint (blockRaisesIn t rE dE)).trace
    ∧ (checkpoint (blockRaisesIn t rE dE)).outcome ≠ .hangs
    ∧ (t ≤ 5 → (checkpoint (blockRaisesIn t rE dE)).raised = some .workerGone)
    ∧ (5 < t → (checkpoint (blockRaisesIn t rE dE)).raised = some .stopTimeout)
    ∧ (checkpoint (blockRaisesIn t rE dE)).marker = false
    ∧ (checkpoint (blockRaisesIn t rE dE)).flockHeld = false := by
  by_cases h : 5 < t
  · have h2 : ¬t ≤ 5 := by omega
    simp [checkpoint, blockRaisesIn, waitForStop, h, h2]
  · have h2 : t ≤ 5 := by omega
    simp [checkpoint, blockRaisesIn, waitForStop, h, h2]

theorem block_failure_kills_no_marker_lock_released_witness :
    (checkpoint (blockRaisesIn 3 0 0)).worker = .exited 1
    ∧ (checkpoint (blockRaisesIn 3 0 0)).raised = some .workerGone :=
  ⟨(block_failure_kills_no_marker_lock_released 3 0 0).1,
   (block_failure_kills_no_marker_lock_released 3 0 0).2.2.2.1 (by decide)⟩

/-- C6 counterexample to the claim as stated: a caller block that raises
6 seconds in (after the 5-second window) is reported by the controller
as the stop-timeout failure, not as the worker-crash failure. -/
theorem slow_block_failure_reports_timeout_not_crash :
    (checkpoint (blockRaisesIn 6 0 0)).raised = some .stopTimeout
    ∧ (checkpoint (blockRaisesIn 6 0 0)).raised ≠ some .workerGone
    ∧ (checkpoint (blockRaisesIn 6 0 0)).worker = .exited 1 := by
  decide

end CryoCkpt


/-! ## Theorems on the identity deriver -/

/-- Lower-case hexadecimal digit. -/
def isHexChar (c : Char) : Bool :=
  (decide ('0' ≤ c) && decide (c ≤ '9')) || (decide ('a' ≤ c) && decide (c ≤ 'f'))

theorem hexChar_isHex : ∀ k < 16, isHexChar (hexChar k) = true := by decide

theorem sha256Hex_length (msg : List Nat) : (sha256Hex msg).length = 64 := by
  simp [sha256Hex, sha256Words, wordHex]

theorem mem_sha256Hex_isHex (msg : List Nat) : ∀ c ∈ sha256Hex msg, isHexChar c = true := by
  intro c hc
  simp only [sha256Hex, List.mem_flatten, List.mem_map] at hc
  obtain ⟨l, ⟨x, _, rfl⟩, hcl⟩ := hc
  simp only [wordHex, List.mem_map, List.mem_range] at hcl
  obtain ⟨i, _, rfl⟩ := hcl
  exact hexChar_isHex _ (Nat.mod_lt _ (by norm_num))

/-- C5: identity derivation is a pure function of the caller context, the
runtime version string and the filtered environment — equal inputs give
the identical token — and the token is the 16-character truncation of the
hex digest of the canonical sorted-key serialisation, so it is 16
characters long and entirely lower-case hexadecimal. -/
theorem generate_checkpoint_id_deterministic_sixteen_hex
    (ver ver2 : String) (env env2 : List (String × String))
    (ctx ctx2 : Option (List (String × Json)))
    (hv : ver = ver2) (he : env = env2) (hc : ctx = ctx2) :
    _generate_checkpoint_id ver env ctx = _generate_checkpoint_id ver2 env2 ctx2
    ∧ (_generate_checkpoint_id ver env ctx).length = 16
    ∧ (∀ c ∈ (_generate_checkpoint_id ver env ctx).data, isHexChar c = true)
    ∧ _generate_checkpoint_id ver env ctx
        = String.mk ((sha256Hex (utf8Encode (dumpJson (Json.obj
            (mergedContext ver (pythonEnvFilter env) ctx))))).take 16) := by
  subst hv; subst he; subst hc
  refine ⟨rfl, ?_, ?_, rfl⟩
  · show (List.take 16 _).length = 16
    simp [List.length_take, sha256Hex_length]
  · intro c hcmem
    exact mem_sha256Hex_isHex _ c (List.mem_of_mem_take hcmem)

theorem generate_checkpoint_id_deterministic_sixteen_hex_witness :
    _generate_checkpoint_id "3.12.0" [("PYTHONPATH", "/x")] none
      = _generate_checkpoint_id "3.12.0" [("PYTHONPATH", "/x")] none
    ∧ (_generate_checkpoint_id "3.12.0" [("PYTHONPATH", "/x")] none).length = 16 :=
  ⟨(generate_checkpoint_id_deterministic_sixteen_hex "3.12.0" "3.12.0"
      [("PYTHONPATH", "/x")] [("PYTHONPATH", "/x")] none none rfl rfl rfl).1,
   (generate_checkpoint_id_deterministic_sixteen_hex "3.12.0" "3.12.0"
      [("PYTHONPATH", "/x")] [("PYTHONPATH", "/x")] none none rfl rfl rfl).2.1⟩

/-! ## Serialisation only sees the environment as a mapping

`json.dumps(..., sort_keys=True)` sorts every object's entries by key, so
two enumerations of the same key-to-value mapping serialise identically.
This carries the C10 argument: the identity ignores both the variables
outside the `PYTHONPATH`/`PYTHONHOME` prefixes and the enumeration order
of the rest. -/

theorem dumpEntries_eq_map (l : List (String × Json)) :
    dumpEntries l = l.map (fun kv => (kv.1, dumpJson kv.2)) := by
  induction l with
  | nil => rfl
  | cons kv rest ih => cases kv; simp [dumpEntries, ih]

/-- Two enumerations of one mapping with duplicate-free keys sort to the
same entry list. -/
theorem mergeSort_keyLe_eq (l1 l2 : List (String × List Char))
    (hp : l1.Perm l2) (nd : (l1.map Prod.fst).Nodup) :
    l1.mergeSort keyLe = l2.mergeSort keyLe := by
  have htrans : ∀ a b c : String × List Char,
      keyLe a b = true → keyLe b c = true → keyLe a c = true := by
    intro a b c hab hbc
    simp only [keyLe, decide_eq_true_eq] at *
    exact le_trans hab hbc
  have htotal : ∀ a b : String × List Char, (keyLe a b || keyLe b a) = true := by
    intro a b
    simp only [keyLe, Bool.or_eq_true, decide_eq_true_eq]
    exact le_total a.1 b.1
  have hperm : (l1.mergeSort keyLe).Perm (l2.mergeSort keyLe) :=
    (List.mergeSort_perm l1 keyLe).trans (hp.trans (List.mergeSort_perm l2 keyLe).symm)
  have nd1 : ((l1.mergeSort keyLe).map Prod.fst).Nodup :=
    nd.perm ((List.mergeSort_perm l1 keyLe).map Prod.fst).symm
  have nd2 : ((l2.mergeSort keyLe).map Prod.fst).Nodup :=
    nd1.perm (hperm.map Prod.fst)
  have strict : ∀ l : List (String × List Char),
      List.Pairwise (fun a b => keyLe a b = true) l → (l.map Prod.fst).Nodup →
      List.Sorted (fun a b : String × List Char => a.1 < b.1) l := by
    intro l hs hnd
    have hne : List.Pairwise (fun a b : String × List Char => a.1 ≠ b.1) l :=
      List.pairwise_map.mp hnd
    exact (hs.and hne).imp (fun h => by
      refine lt_of_le_of_ne ?_ h.2
      have := h.1
      simpa [keyLe, decide_eq_true_eq] using this)
  haveI : IsAntisymm (String × List Char) (fun a b => a.1 < b.1) :=
    ⟨fun a b h1 h2 => absurd h1 (lt_asymm h2)⟩
  exact List.eq_of_perm_of_sorted hperm
    (strict _ (List.sorted_mergeSort htrans htotal l1) nd1)
    (strict _ (List.sorted_mergeSort htrans htotal l2) nd2)

theorem dumpJson_obj_congr (l1 l2 : List (String × Json))
    (h : dumpEntries l1 = dumpEntries l2) :
    dumpJson (.obj l1) = dumpJson (.obj l2) := by
  simp [dumpJson, h]

theorem dumpJson_obj_of_perm (l1 l2 : List (String × Json))
    (hp : (dumpEntries l1).Perm (dumpEntries l2))
    (nd : ((dumpEntries l1).map Prod.fst).Nodup) :
    dumpJson (.obj l1) = dumpJson (.obj l2) := by
  simp [dumpJson, mergeSort_keyLe_eq _ _ hp nd]

/-- The `"env"` object serialises identically for any two enumerations of
the same filtered environment mapping. -/
theorem envObj_dump_eq (f1 f2 : List (String × String))
    (hp : f1.Perm f2) (nd : (f1.map Prod.fst).Nodup) :
    dumpJson (.obj (f1.map (fun kv => (kv.1, Json.str kv.2))))
    = dumpJson (.obj (f2.map (fun kv => (kv.1, Json.str kv.2)))) := by
  apply dumpJson_obj_of_perm
  · rw [dumpEntries_eq_map, dumpEntries_eq_map]
    exact (hp.map _).map _
  · rw [dumpEntries_eq_map]
    have hkeys : ((f1.map (fun kv => (kv.1, Json.str kv.2))).map
        (fun kv => (kv.1, dumpJson kv.2))).map Prod.fst = f1.map Prod.fst := by
      simp [List.map_map, Function.comp_def]
    rw [hkeys]
    exact nd

/-- The full merged context serialises identically whenever its `"env"`
value does (the other entries and the `dict.update` structure only look
at keys). -/
theorem mergedContext_dump_congr (ver : String) (ctx : Option (List (String × Json)))
    (f1 f2 : List (String × String))
    (ho : dumpJson (.obj (f1.map (fun kv => (kv.1, Json.str kv.2))))
        = dumpJson (.obj (f2.map (fun kv => (kv.1, Json.str kv.2))))) :
    dumpJson (.obj (mergedContext ver f1 ctx)) = dumpJson (.obj (mergedContext ver f2 ctx)) := by
  apply dumpJson_obj_congr
  cases ctx with
  | none => simp [mergedContext, dumpEntries, ho]
  | some c =>
    cases hf : c.find? (fun x => x.1 == "env") <;>
      simp [mergedContext, dictUpdate, dumpEntries_eq_map, hf, ho]

/-- C10: the identity ignores every environment variable whose name does
not start with `PYTHONPATH` or `PYTHONHOME` — two environments that agree
on the variables with those prefixes (as a duplicate-free mapping, in any
enumeration order) yield the same identity for equal version and caller
context. -/
theorem identity_ignores_non_python_environment
    (ver : String) (ctx : Option (List (String × Json)))
    (env1 env2 : List (String × String))
    (hp : (pythonEnvFilter env1).Perm (pythonEnvFilter env2))
    (nd : ((pythonEnvFilter env1).map Prod.fst).Nodup) :
    _generate_checkpoint_id ver env1 ctx = _generate_checkpoint_id ver env2 ctx := by
  unfold _generate_checkpoint_id
  rw [mergedContext_dump_congr ver ctx _ _ (envObj_dump_eq _ _ hp nd)]

theorem identity_ignores_non_python_environment_witness :
    _generate_checkpoint_id "3.12.0" [("PATH", "/usr"), ("PYTHONPATH", "/x")] none
    = _generate_checkpoint_id "3.12.0" [("PYTHONPATH", "/x"), ("HOME", "/h")] none :=
  identity_ignores_non_python_environment "3.12.0" none
    [("PATH", "/usr"), ("PYTHONPATH", "/x")] [("PYTHONPATH", "/x"), ("HOME", "/h")]
    (by decide) (by decide)

end Crio
